import Mathlib

/-!
Shallow embedding of `src/unified_housing_dashboard.py` (a pandas / Dash
housing-data dashboard) together with proofs about its cleaning,
column-classification, feature-catalog and chart-callback logic.

Modelling conventions:
* A dataframe cell is `Option Value`: `none` is a missing value (pandas NaN),
  `some v` a present value (`Value.str` for object-dtype cells, `Value.num`
  for numeric cells, rationals standing in for the numeric values).
* The dataframe is column-major: a list of named, dtype-tagged columns, plus
  the row count; well-formedness says every column has `nrows` cells.
* pandas / plotly aggregation primitives (`groupby(...).size()`,
  `value_counts()`, `px.histogram` binning) are modelled by executable Lean
  functions over these lists, keeping their documented data semantics
  (missing keys dropped by `groupby` and `value_counts`, descending count
  order in `value_counts`, equal-width binning over the observed min-max
  range for the histogram).  Group ordering produced by pandas (sorted keys)
  is modelled as first-occurrence order; no claim below depends on group
  order except the `value_counts` descending-count order, which is modelled
  explicitly by sorting.
-/

/-- A present cell value of the loaded CSV: object-dtype cells hold strings,
numeric-dtype cells hold numbers (modelled as rationals). -/
inductive Value where
  | str (s : String)
  | num (q : ℚ)
  deriving DecidableEq

/-- A dataframe cell: `none` models a pandas missing value (NaN). -/
abbrev Cell := Option Value

/-- The pandas storage dtype of a column, as far as
`select_dtypes(include=['object'])` / `select_dtypes(include=[np.number])`
distinguish them: object dtype, numeric dtype, or anything else. -/
inductive Dtype where
  | obj | numeric | other
  deriving DecidableEq

/-- One column of the loaded dataframe. -/
structure Column where
  name : String
  dtype : Dtype
  cells : List Cell
  deriving DecidableEq

/-- The in-memory dataframe `df`: named columns plus the row count. -/
structure DataFrame where
  nrows : Nat
  cols : List Column
  deriving DecidableEq

/-- Well-formedness: every column has exactly `nrows` cells. -/
def DataFrame.WF (d : DataFrame) : Prop :=
  ∀ c ∈ d.cols, c.cells.length = d.nrows

/-- `df.columns`. -/
def DataFrame.columnNames (d : DataFrame) : List String :=
  d.cols.map (·.name)

/-- Column lookup `df[name]`: the first column with that name, if any. -/
def DataFrame.findCol (d : DataFrame) (n : String) : Option Column :=
  d.cols.find? (fun c => c.name = n)

/-- `df.isnull().sum()` for one column: the number of missing cells. -/
def missingCount (c : Column) : Nat :=
  c.cells.countP (·.isNone)

/-- Line 14, `df = df.loc[:, df.isnull().mean() < 0.5]`: keep exactly the
columns whose missing fraction is strictly below one half.  Over naturals
`missingCount c / nrows < 1/2` is `2 * missingCount c < nrows`; for
`nrows = 0` pandas compares NaN, which is falsy, so every column is
dropped — and `2 * 0 < 0` is false as well. -/
def cleanDF (d : DataFrame) : DataFrame :=
  { d with cols := d.cols.filter (fun c => 2 * missingCount c < d.nrows) }

/-- Line 17, `df.select_dtypes(include=['object']).columns.tolist()`. -/
def select_dtypes_object (d : DataFrame) : List String :=
  (d.cols.filter (fun c => c.dtype = Dtype.obj)).map (·.name)

/-- Line 18, `df.select_dtypes(include=[np.number]).columns.tolist()`. -/
def select_dtypes_number (d : DataFrame) : List String :=
  (d.cols.filter (fun c => c.dtype = Dtype.numeric)).map (·.name)

/-- The two classified column-name lists of lines 17-24. -/
structure Classified where
  categorical_cols : List String
  numerical_cols : List String
  deriving DecidableEq

/-- Lines 17-24: dtype-based classification followed by the `MSSubClass`
override (`if 'MSSubClass' in df.columns and 'MSSubClass' not in
categorical_cols: categorical_cols.append(...); if 'MSSubClass' in
numerical_cols: numerical_cols.remove(...)`).  Python's `list.remove`
deletes the first occurrence, i.e. `List.erase`. -/
def classifyColumns (d : DataFrame) : Classified :=
  if "MSSubClass" ∈ d.columnNames ∧ "MSSubClass" ∉ select_dtypes_object d then
    { categorical_cols := select_dtypes_object d ++ ["MSSubClass"]
      numerical_cols :=
        if "MSSubClass" ∈ select_dtypes_number d then
          (select_dtypes_number d).erase "MSSubClass"
        else select_dtypes_number d }
  else
    { categorical_cols := select_dtypes_object d
      numerical_cols := select_dtypes_number d }

/-- Line 27, `[col for col in numerical_cols if col != 'SalePrice']`. -/
def numerical_features_for_comparison (cl : Classified) : List String :=
  cl.numerical_cols.filter (fun col => col ≠ "SalePrice")

/-- Line 28, `all_features = categorical_cols + numerical_features_for_comparison`. -/
def all_features (cl : Classified) : List String :=
  cl.categorical_cols ++ numerical_features_for_comparison cl

/-- Helper for C1. -/
theorem mem_cleanDF_iff (d : DataFrame) (c : Column) (h : 0 < d.nrows) :
    c ∈ (cleanDF d).cols ↔
      (c ∈ d.cols ∧ (missingCount c : ℚ) / (d.nrows : ℚ) < 1 / 2) := by
  have hq : (0 : ℚ) < (d.nrows : ℚ) := by exact_mod_cast h
  constructor
  · intro hc
    rcases List.mem_filter.1 hc with ⟨hmem, hcond⟩
    refine ⟨hmem, ?_⟩
    have h2 : 2 * missingCount c < d.nrows := by
      simpa using hcond
    rw [div_lt_iff₀ hq]
    have : ((2 * missingCount c : Nat) : ℚ) < ((d.nrows : Nat) : ℚ) := by
      exact_mod_cast h2
    push_cast at this
    linarith
  · intro ⟨hmem, hfrac⟩
    refine List.mem_filter.2 ⟨hmem, ?_⟩
    rw [div_lt_iff₀ hq] at hfrac
    have h2 : (2 * missingCount c : ℚ) < (d.nrows : ℚ) := by linarith
    have : 2 * missingCount c < d.nrows := by exact_mod_cast h2
    simpa using this

/-- C1: for every loaded dataset with at least one row, a column is retained
in the cleaned dataset iff its missing fraction (missing cells over row
count) is strictly below 0.5; every column with missing fraction ≥ 0.5 is
absent from the cleaned dataset. -/
theorem C1_column_retention (d : DataFrame) (c : Column) (h : 0 < d.nrows) :
    (c ∈ (cleanDF d).cols ↔
      (c ∈ d.cols ∧ (missingCount c : ℚ) / (d.nrows : ℚ) < 1 / 2)) ∧
    ((1 / 2 : ℚ) ≤ (missingCount c : ℚ) / (d.nrows : ℚ) → c ∉ (cleanDF d).cols) := by
  refine ⟨mem_cleanDF_iff d c h, fun hge hc => ?_⟩
  have := ((mem_cleanDF_iff d c h).1 hc).2
  linarith

/-- Membership in the object-dtype selection. -/
theorem mem_select_dtypes_object {d : DataFrame} {n : String} :
    n ∈ select_dtypes_object d ↔
      ∃ c ∈ d.cols, c.name = n ∧ c.dtype = Dtype.obj := by
  simp only [select_dtypes_object, List.mem_map, List.mem_filter,
    decide_eq_true_eq]
  constructor
  · rintro ⟨c, ⟨hc, hd⟩, hn⟩
    exact ⟨c, hc, hn, hd⟩
  · rintro ⟨c, hc, hn, hd⟩
    exact ⟨c, ⟨hc, hd⟩, hn⟩

/-- Membership in the numeric-dtype selection. -/
theorem mem_select_dtypes_number {d : DataFrame} {n : String} :
    n ∈ select_dtypes_number d ↔
      ∃ c ∈ d.cols, c.name = n ∧ c.dtype = Dtype.numeric := by
  simp only [select_dtypes_number, List.mem_map, List.mem_filter,
    decide_eq_true_eq]
  constructor
  · rintro ⟨c, ⟨hc, hd⟩, hn⟩
    exact ⟨c, hc, hn, hd⟩
  · rintro ⟨c, hc, hn, hd⟩
    exact ⟨c, ⟨hc, hd⟩, hn⟩

/-- With duplicate-free column names, no name is both object- and
numeric-typed. -/
theorem not_obj_and_number {d : DataFrame} (hnd : d.columnNames.Nodup)
    {n : String} :
    ¬(n ∈ select_dtypes_object d ∧ n ∈ select_dtypes_number d) := by
  rintro ⟨ho, hn⟩
  rcases mem_select_dtypes_object.1 ho with ⟨c1, hc1, hn1, hd1⟩
  rcases mem_select_dtypes_number.1 hn with ⟨c2, hc2, hn2, hd2⟩
  have : c1 = c2 :=
    List.inj_on_of_nodup_map hnd hc1 hc2 (by rw [hn1, hn2])
  rw [this, hd2] at hd1
  exact Dtype.noConfusion hd1

/-- The object-dtype selection has duplicate-free names. -/
theorem nodup_select_dtypes_object {d : DataFrame}
    (hnd : d.columnNames.Nodup) : (select_dtypes_object d).Nodup := by
  refine hnd.sublist ?_
  simp only [select_dtypes_object, DataFrame.columnNames]
  exact (List.filter_sublist d.cols).map _

/-- The numeric-dtype selection has duplicate-free names. -/
theorem nodup_select_dtypes_number {d : DataFrame}
    (hnd : d.columnNames.Nodup) : (select_dtypes_number d).Nodup := by
  refine hnd.sublist ?_
  simp only [select_dtypes_number, DataFrame.columnNames]
  exact (List.filter_sublist d.cols).map _

/-- Cleaning keeps column names duplicate-free. -/
theorem nodup_columnNames_cleanDF {d : DataFrame}
    (hnd : d.columnNames.Nodup) : (cleanDF d).columnNames.Nodup := by
  refine hnd.sublist ?_
  simp only [cleanDF, DataFrame.columnNames]
  exact (List.filter_sublist d.cols).map _

/-- `MSSubClass` membership in `df.columns` versus the two dtype selections. -/
theorem mem_columnNames_of_select {d : DataFrame} {n : String}
    (h : n ∈ select_dtypes_object d ∨ n ∈ select_dtypes_number d) :
    n ∈ d.columnNames := by
  rcases h with h | h
  · rcases mem_select_dtypes_object.1 h with ⟨c, hc, hn, -⟩
    exact List.mem_map.2 ⟨c, hc, hn⟩
  · rcases mem_select_dtypes_number.1 h with ⟨c, hc, hn, -⟩
    exact List.mem_map.2 ⟨c, hc, hn⟩

/-- If `MSSubClass` is a column name, the override puts it into the
categorical list and keeps it out of the numerical list. -/
theorem classify_mssubclass_mem {d : DataFrame} (hnd : d.columnNames.Nodup)
    (h : "MSSubClass" ∈ d.columnNames) :
    "MSSubClass" ∈ (classifyColumns d).categorical_cols ∧
      "MSSubClass" ∉ (classifyColumns d).numerical_cols := by
  unfold classifyColumns
  by_cases hcat : "MSSubClass" ∈ select_dtypes_object d
  · rw [if_neg (fun hg => hg.2 hcat)]
    exact ⟨hcat, fun hnum => not_obj_and_number hnd ⟨hcat, hnum⟩⟩
  · rw [if_pos ⟨h, hcat⟩]
    refine ⟨List.mem_append.2 (Or.inr (List.mem_singleton.2 rfl)), ?_⟩
    by_cases hnum : "MSSubClass" ∈ select_dtypes_number d
    · rw [if_pos hnum]
      exact (nodup_select_dtypes_number hnd).not_mem_erase
    · rw [if_neg hnum]
      exact hnum

/-- If `MSSubClass` is not a column name, the override changes nothing. -/
theorem classify_mssubclass_absent {d : DataFrame}
    (h : "MSSubClass" ∉ d.columnNames) :
    classifyColumns d =
      { categorical_cols := select_dtypes_object d
        numerical_cols := select_dtypes_number d } := by
  unfold classifyColumns
  rw [if_neg (fun hg => h hg.1)]

/-- C2: on the cleaned dataset, if `MSSubClass` is a retained column then it
is classified as categorical and not numerical, whatever its storage dtype;
if it is absent, the override leaves the dtype-based classification
unchanged. -/
theorem C2_mssubclass_override (d : DataFrame) (hnd : d.columnNames.Nodup) :
    ("MSSubClass" ∈ (cleanDF d).columnNames →
      "MSSubClass" ∈ (classifyColumns (cleanDF d)).categorical_cols ∧
        "MSSubClass" ∉ (classifyColumns (cleanDF d)).numerical_cols) ∧
    ("MSSubClass" ∉ (cleanDF d).columnNames →
      classifyColumns (cleanDF d) =
        { categorical_cols := select_dtypes_object (cleanDF d)
          numerical_cols := select_dtypes_number (cleanDF d) }) :=
  ⟨fun h => classify_mssubclass_mem (nodup_columnNames_cleanDF hnd) h,
   fun h => classify_mssubclass_absent h⟩

/-- Characterisation of the categorical list produced by classification. -/
theorem mem_categorical_cases {d : DataFrame} {n : String}
    (h : n ∈ (classifyColumns d).categorical_cols) :
    n ∈ select_dtypes_object d ∨ n = "MSSubClass" := by
  unfold classifyColumns at h
  by_cases hg : "MSSubClass" ∈ d.columnNames ∧
      "MSSubClass" ∉ select_dtypes_object d
  · rw [if_pos hg] at h
    rcases List.mem_append.1 h with h | h
    · exact Or.inl h
    · exact Or.inr (List.mem_singleton.1 h)
  · rw [if_neg hg] at h
    exact Or.inl h

/-- Characterisation of the numerical list produced by classification. -/
theorem mem_numerical_subset {d : DataFrame} {n : String}
    (h : n ∈ (classifyColumns d).numerical_cols) :
    n ∈ select_dtypes_number d := by
  unfold classifyColumns at h
  by_cases hg : "MSSubClass" ∈ d.columnNames ∧
      "MSSubClass" ∉ select_dtypes_object d
  · rw [if_pos hg] at h
    by_cases hnum : "MSSubClass" ∈ select_dtypes_number d
    · rw [if_pos hnum] at h
      exact (select_dtypes_number d).erase_sublist "MSSubClass" |>.mem h
    · rw [if_neg hnum] at h
      exact h
  · rw [if_neg hg] at h
    exact h

/-- The classified categorical and numerical lists are disjoint when column
names are duplicate-free. -/
theorem categorical_numerical_disjoint {d : DataFrame}
    (hnd : d.columnNames.Nodup) {n : String}
    (hc : n ∈ (classifyColumns d).categorical_cols) :
    n ∉ (classifyColumns d).numerical_cols := by
  intro hn
  rcases mem_categorical_cases hc with ho | rfl
  · exact not_obj_and_number hnd ⟨ho, mem_numerical_subset hn⟩
  · rcases classify_mssubclass_mem hnd
      (mem_columnNames_of_select (Or.inr (mem_numerical_subset hn))) with ⟨-, h2⟩
    exact h2 hn

/-- The classified categorical list is duplicate-free when column names
are. -/
theorem nodup_categorical {d : DataFrame} (hnd : d.columnNames.Nodup) :
    (classifyColumns d).categorical_cols.Nodup := by
  unfold classifyColumns
  by_cases hg : "MSSubClass" ∈ d.columnNames ∧
      "MSSubClass" ∉ select_dtypes_object d
  · rw [if_pos hg]
    refine List.Nodup.append (nodup_select_dtypes_object hnd)
      (List.nodup_singleton _) ?_
    intro x hx hx1
    rw [List.mem_singleton.1 hx1] at hx
    exact hg.2 hx
  · rw [if_neg hg]
    exact nodup_select_dtypes_object hnd

/-- The classified numerical list is duplicate-free when column names
are. -/
theorem nodup_numerical {d : DataFrame} (hnd : d.columnNames.Nodup) :
    (classifyColumns d).numerical_cols.Nodup := by
  have h := nodup_select_dtypes_number hnd
  unfold classifyColumns
  by_cases hg : "MSSubClass" ∈ d.columnNames ∧
      "MSSubClass" ∉ select_dtypes_object d
  · rw [if_pos hg]
    by_cases hnum : "MSSubClass" ∈ select_dtypes_number d
    · rw [if_pos hnum]
      exact h.sublist ((select_dtypes_number d).erase_sublist "MSSubClass")
    · rw [if_neg hnum]
      exact h
  · rw [if_neg hg]
    exact h

/-- C3: the comparison feature list never contains `SalePrice`;
`all_features` is the concatenation of the categorical list and the
comparison list; with duplicate-free column names the two lists are
disjoint and the concatenation is duplicate-free. -/
theorem C3_catalog_disjoint_union (d : DataFrame)
    (hnd : d.columnNames.Nodup) :
    "SalePrice" ∉ numerical_features_for_comparison (classifyColumns d) ∧
    all_features (classifyColumns d) =
      (classifyColumns d).categorical_cols ++
        numerical_features_for_comparison (classifyColumns d) ∧
    (∀ n ∈ (classifyColumns d).categorical_cols,
      n ∉ numerical_features_for_comparison (classifyColumns d)) ∧
    (all_features (classifyColumns d)).Nodup := by
  refine ⟨?_, rfl, ?_, ?_⟩
  · intro h
    have := (List.mem_filter.1 h).2
    simp at this
  · intro n hn hmem
    exact categorical_numerical_disjoint hnd hn
      (List.mem_of_mem_filter hmem)
  · rw [all_features, List.nodup_append]
    refine ⟨nodup_categorical hnd, ?_, ?_⟩
    · exact (nodup_numerical hnd).sublist (List.filter_sublist _)
    · intro n hn hmem
      exact categorical_numerical_disjoint hnd hn
        (List.mem_of_mem_filter hmem)

/-- The distinct elements of a list in first-occurrence order, with a fuel
argument making the recursion structural (the fuel is always at least the
list length, so it never runs out). -/
def uniqueKeysF {α : Type} [DecidableEq α] : Nat → List α → List α
  | _, [] => []
  | 0, _ :: _ => []
  | n + 1, a :: as => a :: uniqueKeysF n (as.filter (fun b => b ≠ a))

/-- The distinct elements of a list in first-occurrence order.  Models the
set of group keys of `groupby(...)` / index of `value_counts()` (pandas
orders group keys by sorting; no property below depends on key order, so
first-occurrence order is used). -/
def uniqueKeys {α : Type} [DecidableEq α] (l : List α) : List α :=
  uniqueKeysF l.length l

/-- `uniqueKeysF` has the same members as the original list when the fuel
covers the list length. -/
theorem mem_uniqueKeysF {α : Type} [DecidableEq α] :
    ∀ (n : Nat) (l : List α), l.length ≤ n →
      ∀ x : α, (x ∈ uniqueKeysF n l ↔ x ∈ l)
  | _, [], _, x => by simp [uniqueKeysF]
  | 0, a :: as, h, x => by simp at h
  | n + 1, a :: as, h, x => by
    rw [uniqueKeysF]
    by_cases hx : x = a
    · subst hx
      simp
    · simp only [List.mem_cons, hx, false_or]
      rw [mem_uniqueKeysF n (as.filter (fun b => b ≠ a))
        (le_trans (as.length_filter_le _) (Nat.succ_le_succ_iff.1 h)) x]
      simp [List.mem_filter, hx]

/-- `uniqueKeys` has the same members as the original list. -/
theorem mem_uniqueKeys {α : Type} [DecidableEq α] (l : List α) (x : α) :
    x ∈ uniqueKeys l ↔ x ∈ l :=
  mem_uniqueKeysF l.length l le_rfl x

/-- `uniqueKeysF` is duplicate-free when the fuel covers the list length. -/
theorem nodup_uniqueKeysF {α : Type} [DecidableEq α] :
    ∀ (n : Nat) (l : List α), l.length ≤ n → (uniqueKeysF n l).Nodup
  | _, [], _ => by simp [uniqueKeysF]
  | 0, a :: as, h => by simp at h
  | n + 1, a :: as, h => by
    rw [uniqueKeysF]
    have hrec : as.length ≤ n := Nat.succ_le_succ_iff.1 h
    have hfu : (as.filter (fun b => b ≠ a)).length ≤ n :=
      le_trans (as.length_filter_le _) hrec
    refine List.nodup_cons.2 ⟨?_, nodup_uniqueKeysF n _ hfu⟩
    intro hmem
    have := List.mem_filter.1 ((mem_uniqueKeysF n _ hfu a).1 hmem)
    simp at this

/-- `uniqueKeys` is duplicate-free. -/
theorem nodup_uniqueKeys {α : Type} [DecidableEq α] (l : List α) :
    (uniqueKeys l).Nodup :=
  nodup_uniqueKeysF l.length l le_rfl

/-- Summing the multiplicities of the distinct elements recovers the list
length, for any sufficient fuel. -/
theorem sum_count_uniqueKeysF {α : Type} [DecidableEq α] :
    ∀ (n : Nat) (l : List α), l.length ≤ n →
      ((uniqueKeysF n l).map (fun k => l.count k)).sum = l.length
  | _, [], _ => by simp [uniqueKeysF]
  | 0, a :: as, h => by simp at h
  | n + 1, a :: as, h => by
    rw [uniqueKeysF, List.map_cons, List.sum_cons]
    have hrec : as.length ≤ n := Nat.succ_le_succ_iff.1 h
    have hfu : (as.filter (fun b => b ≠ a)).length ≤ n :=
      le_trans (as.length_filter_le _) hrec
    have hcong :
        (uniqueKeysF n (as.filter (fun b => b ≠ a))).map
            (fun k => (a :: as).count k) =
          (uniqueKeysF n (as.filter (fun b => b ≠ a))).map
            (fun k => (as.filter (fun b => b ≠ a)).count k) := by
      refine List.map_congr_left ?_
      intro k hk
      have hkne : k ≠ a := by
        have := List.mem_filter.1 ((mem_uniqueKeysF n _ hfu k).1 hk)
        simpa using this.2
      rw [List.count_cons_of_ne hkne, List.count_filter (by simpa using hkne)]
    rw [hcong, sum_count_uniqueKeysF n (as.filter (fun b => b ≠ a)) hfu]
    rw [List.count_cons_self, List.length_cons]
    have hsplit : as.length =
        as.count a + (as.filter (fun b => b ≠ a)).length := by
      rw [List.count_eq_countP, ← List.countP_eq_length_filter,
        List.length_eq_countP_add_countP (p := fun b => b == a) (l := as)]
      congr 1
      refine List.countP_congr ?_
      intro x _
      simp
    omega

/-- Summing the multiplicities of the distinct elements recovers the list
length: the grouping underlying `groupby(...).size()` partitions the
list. -/
theorem sum_count_uniqueKeys {α : Type} [DecidableEq α] (l : List α) :
    ((uniqueKeys l).map (fun k => l.count k)).sum = l.length :=
  sum_count_uniqueKeysF l.length l le_rfl

/-- The per-group row counts of `groupby(keys).size().reset_index(...)`:
one entry per distinct key, carrying the key's multiplicity. -/
def groupSizes {α : Type} [DecidableEq α] (l : List α) : List (α × Nat) :=
  (uniqueKeys l).map (fun k => (k, l.count k))

/-- Membership characterisation of `groupSizes`. -/
theorem mem_groupSizes {α : Type} [DecidableEq α] {l : List α}
    {p : α × Nat} :
    p ∈ groupSizes l ↔ p.1 ∈ l ∧ p.2 = l.count p.1 := by
  constructor
  · intro hp
    rcases List.mem_map.1 hp with ⟨k, hk, hkp⟩
    rcases hkp
    exact ⟨(mem_uniqueKeys _ _).1 hk, rfl⟩
  · rintro ⟨hmem, hcnt⟩
    refine List.mem_map.2 ⟨p.1, (mem_uniqueKeys _ _).2 hmem, ?_⟩
    rw [← hcnt]

/-- Membership characterisation of `groupSizes`, with the multiplicity
spelled out as a row count. -/
theorem mem_groupSizes_countP {α : Type} [DecidableEq α] {l : List α}
    {p : α × Nat} :
    p ∈ groupSizes l ↔ p.1 ∈ l ∧ p.2 = l.countP (fun x => x = p.1) := by
  rw [mem_groupSizes]
  have : l.count p.1 = l.countP (fun x => x = p.1) := by
    rw [List.count_eq_countP]
    refine List.countP_congr ?_
    intro x _
    simp
  rw [this]

/-- The group sizes sum to the number of grouped elements. -/
theorem sum_groupSizes {α : Type} [DecidableEq α] (l : List α) :
    ((groupSizes l).map (·.2)).sum = l.length := by
  rw [groupSizes, List.map_map]
  exact sum_count_uniqueKeys l

/-- Row pairs of two columns in which both cells are present.  `groupby`
with two key columns silently drops every row whose key has a missing
component (pandas default `dropna=True`); `px.scatter` likewise only plots
rows with both coordinates present. -/
def validPairs (xs ys : List Cell) : List (Value × Value) :=
  (xs.zip ys).filterMap (fun p =>
    match p with
    | (some a, some b) => some (a, b)
    | _ => none)

/-- The box-plot data of `px.box(df, x=x_col, y=y_col)`: one box per
distinct present value of the x column, carrying the y cells of the rows
with that x value. -/
def boxGroups (xs ys : List Cell) : List (Value × List Cell) :=
  (uniqueKeys (xs.filterMap id)).map
    (fun k => (k, ((xs.zip ys).filter (fun p => p.1 = some k)).map (·.2)))

/-- The comparison order of `value_counts()` output: descending count. -/
def countGE (a b : Value × Nat) : Prop := b.2 ≤ a.2

instance : DecidableRel countGE :=
  fun a b => inferInstanceAs (Decidable (b.2 ≤ a.2))

instance : IsTotal (Value × Nat) countGE :=
  ⟨fun a b => Nat.le_total b.2 a.2⟩

instance : IsTrans (Value × Nat) countGE :=
  ⟨fun _ _ _ hab hbc => Nat.le_trans hbc hab⟩

/-- `series.value_counts()`: drop missing cells, count each distinct value,
order by descending count (pandas sorts with an unstable sort; ties may come
in any order, and the claims below only use the descending-count order). -/
def value_counts (cells : List Cell) : List (Value × Nat) :=
  List.insertionSort countGE (groupSizes (cells.filterMap id))

/-- The numeric values present in a column (missing cells dropped;
object-dtype cells cannot appear in a numeric column). -/
def numericValues (cells : List Cell) : List ℚ :=
  cells.filterMap (fun cell =>
    match cell with
    | some (Value.num q) => some q
    | _ => none)

/-- Minimum of a list of rationals (`0` for the empty list, unused case). -/
def qmin : List ℚ → ℚ
  | [] => 0
  | v :: rest => rest.foldl min v

/-- Maximum of a list of rationals (`0` for the empty list, unused case). -/
def qmax : List ℚ → ℚ
  | [] => 0
  | v :: rest => rest.foldl max v

/-- Equal-width bin assignment: which of the `nbins` bins over
`[lo, lo + nbins * w]` the value `x` falls into, the last bin closed on the
right (the maximum lands in bin `nbins - 1`). -/
def binIndex (nbins : Nat) (lo w x : ℚ) : Nat :=
  if w = 0 then 0 else min (nbins - 1) (⌊(x - lo) / w⌋.toNat)

/-- Histogram data of `px.histogram(df, x=col, nbins=n)`: `n` equal-width
buckets `(left, right, count)` spanning the observed min-max range of the
present values. -/
def histBuckets (nbins : Nat) (vs : List ℚ) : List (ℚ × ℚ × Nat) :=
  if vs.isEmpty then []
  else
    (List.range nbins).map (fun i : Nat =>
      (qmin vs + (i : ℚ) * ((qmax vs - qmin vs) / (nbins : ℚ)),
       qmin vs + ((i : ℚ) + 1) * ((qmax vs - qmin vs) / (nbins : ℚ)),
       vs.countP (fun x =>
         binIndex nbins (qmin vs) ((qmax vs - qmin vs) / (nbins : ℚ)) x = i)))

/-- A renderable chart description, carrying the aggregated data each
plotly-express call is built from (`fig.update_layout` only relabels axes
and is not modelled). -/
inductive ChartSpec where
  /-- `px.bar(grouped_counts, x=.., y='Count', color=..)` of lines 128-130. -/
  | bar (x y color title : String) (data : List ((Value × Value) × Nat))
  /-- `px.bar(counts, x=.., y='Count')` of lines 144-147. -/
  | countBar (x y title : String) (data : List (Value × Nat))
  /-- `px.box(df, x=.., y=..)` of lines 132-133. -/
  | box (x y title : String) (groups : List (Value × List Cell))
  /-- `px.scatter(df, x=.., y=..)` of lines 159-160. -/
  | scatter (x y title : String) (points : List (Value × Value))
  /-- `px.histogram(df, x=.., nbins=.., marginal='box')` of lines 169-171. -/
  | histogram (x title : String) (nbins : Nat) (marginal : String)
      (buckets : List (ℚ × ℚ × Nat))
  deriving DecidableEq

/-- How a query can fail.  `keyError` models the pandas `KeyError` raised
by `df[col]` / `df.groupby([...])` on a missing column; `valueError` models
the plotly-express `ValueError` raised when `x=`/`y=` is not a dataframe
column.  `columnNotFoundError` is modelled from the spec: the spec names a
`ColumnNotFoundError` for all four query functions, but no such error
exists anywhere in the source, which lets the libraries raise their own
errors instead. -/
inductive QueryError where
  | keyError (col : String)
  | valueError (col : String)
  | columnNotFoundError (col : String)
  deriving DecidableEq

/-- Lines 126-135, `update_comparison_plot(categorical_col,
comparison_col)`: if the comparison column is in `categorical_cols`, group
rows by the column pair and bar-chart the group sizes; otherwise box-plot
the comparison column grouped by the categorical column. -/
def update_comparison_plot (d : DataFrame) (cl : Classified)
    (categorical_col comparison_col : String) : Except QueryError ChartSpec :=
  if comparison_col ∈ cl.categorical_cols then
    match d.findCol categorical_col with
    | none => .error (.keyError categorical_col)
    | some c1 =>
      match d.findCol comparison_col with
      | none => .error (.keyError comparison_col)
      | some c2 =>
        .ok (.bar categorical_col "Count" comparison_col
          ("Count of " ++ categorical_col ++ " by " ++ comparison_col)
          (groupSizes (validPairs c1.cells c2.cells)))
  else
    match d.findCol categorical_col with
    | none => .error (.valueError categorical_col)
    | some c1 =>
      match d.findCol comparison_col with
      | none => .error (.valueError comparison_col)
      | some c2 =>
        .ok (.box categorical_col comparison_col
          (comparison_col ++ " Distribution by " ++ categorical_col)
          (boxGroups c1.cells c2.cells))

/-- Lines 143-149, `update_categorical_count_plot(categorical_col)`:
`df[categorical_col].value_counts()` rendered as a bar chart. -/
def update_categorical_count_plot (d : DataFrame) (categorical_col : String) :
    Except QueryError ChartSpec :=
  match d.findCol categorical_col with
  | none => .error (.keyError categorical_col)
  | some c =>
    .ok (.countBar categorical_col "Count"
      ("Count of Properties by " ++ categorical_col)
      (value_counts c.cells))

/-- Lines 158-161, `update_scatter_plot(x_col, y_col)`:
`px.scatter(df, x=x_col, y=y_col)`. -/
def update_scatter_plot (d : DataFrame) (x_col y_col : String) :
    Except QueryError ChartSpec :=
  match d.findCol x_col with
  | none => .error (.valueError x_col)
  | some cx =>
    match d.findCol y_col with
    | none => .error (.valueError y_col)
    | some cy =>
      .ok (.scatter x_col y_col (y_col ++ " vs " ++ x_col)
        (validPairs cx.cells cy.cells))

/-- Lines 164-173, `update_sale_price_histogram(_)`: the callback's only
input is the static component id (line 166); its argument is ignored and it
always renders `px.histogram(df, x='SalePrice', nbins=50, marginal='box')`. -/
def update_sale_price_histogram (d : DataFrame) (_triggerId : String) :
    Except QueryError ChartSpec :=
  match d.findCol "SalePrice" with
  | none => .error (.valueError "SalePrice")
  | some c =>
    .ok (.histogram "SalePrice" "Distribution of Sale Price" 50 "box"
      (histBuckets 50 (numericValues c.cells)))

/-- The four dropdown values owned by the presentation layer. -/
structure SelectionState where
  categorical_value : String
  comparison_value : String
  x_axis_value : String
  y_axis_value : String
  deriving DecidableEq

/-- The dashboard's wiring for the histogram chart: whatever the current
dropdown selections are, the callback is invoked with the static component
id `'sale-price-histogram'` (lines 164-167), never with a dropdown value. -/
def renderSalePriceHistogram (d : DataFrame) (_sel : SelectionState) :
    Except QueryError ChartSpec :=
  update_sale_price_histogram d "sale-price-histogram"

/-- Total of the counts carried by a chart (`0` for charts that carry no
counts). -/
def chartCountSum : ChartSpec → Nat
  | .bar _ _ _ _ data => (data.map (·.2)).sum
  | .countBar _ _ _ data => (data.map (·.2)).sum
  | .histogram _ _ _ _ buckets => (buckets.map (·.2.2)).sum
  | _ => 0

/-- The box labels of `boxGroups` are exactly the distinct present values
of the x column. -/
theorem boxGroups_fst (xs ys : List Cell) :
    (boxGroups xs ys).map (·.1) = uniqueKeys (xs.filterMap id) := by
  rw [boxGroups, List.map_map]
  exact List.map_id _

/-- Membership in the distinct present values of a column. -/
theorem mem_uniqueKeys_filterMap_id {xs : List Cell} {v : Value} :
    v ∈ uniqueKeys (xs.filterMap id) ↔ some v ∈ xs := by
  rw [mem_uniqueKeys, List.mem_filterMap]
  constructor
  · rintro ⟨a, ha, rfl⟩
    exact ha
  · intro h
    exact ⟨some v, h, rfl⟩

/-- C4: the comparison callback dispatches on whether the comparison column
is categorical.  If it is, the result is a bar chart (x the categorical
column, y the count, series the comparison column) whose entries are the
per-pair row counts; otherwise the result is a box plot of the comparison
column grouped by the categorical column, one box per distinct present
value of the categorical column, each box holding the comparison cells of
the rows with that value. -/
theorem C4_comparison_dispatch (d : DataFrame) (cl : Classified)
    (categorical_col comparison_col : String) (c1 c2 : Column)
    (h1 : d.findCol categorical_col = some c1)
    (h2 : d.findCol comparison_col = some c2) :
    (comparison_col ∈ cl.categorical_cols →
      update_comparison_plot d cl categorical_col comparison_col =
        Except.ok (ChartSpec.bar categorical_col "Count" comparison_col
          ("Count of " ++ categorical_col ++ " by " ++ comparison_col)
          (groupSizes (validPairs c1.cells c2.cells))) ∧
      ∀ p : (Value × Value) × Nat,
        p ∈ groupSizes (validPairs c1.cells c2.cells) ↔
          (p.1 ∈ validPairs c1.cells c2.cells ∧
            p.2 = (validPairs c1.cells c2.cells).countP (fun q => q = p.1))) ∧
    (comparison_col ∉ cl.categorical_cols →
      update_comparison_plot d cl categorical_col comparison_col =
        Except.ok (ChartSpec.box categorical_col comparison_col
          (comparison_col ++ " Distribution by " ++ categorical_col)
          (boxGroups c1.cells c2.cells)) ∧
      ((boxGroups c1.cells c2.cells).map (·.1)).Nodup ∧
      (∀ v : Value,
        v ∈ (boxGroups c1.cells c2.cells).map (·.1) ↔ some v ∈ c1.cells) ∧
      (∀ g ∈ boxGroups c1.cells c2.cells,
        g.2 = ((c1.cells.zip c2.cells).filter
          (fun p => p.1 = some g.1)).map (·.2))) := by
  constructor
  · intro hmem
    refine ⟨?_, fun p => mem_groupSizes_countP⟩
    unfold update_comparison_plot
    rw [if_pos hmem, h1, h2]
  · intro hmem
    refine ⟨?_, ?_, ?_, ?_⟩
    · unfold update_comparison_plot
      rw [if_neg hmem, h1, h2]
    · rw [boxGroups_fst]
      exact nodup_uniqueKeys _
    · intro v
      rw [boxGroups_fst]
      exact mem_uniqueKeys_filterMap_id
    · intro g hg
      rcases List.mem_map.1 hg with ⟨k, -, hkg⟩
      rw [← hkg]

/-- The number of rows `groupby` keeps: those with both key cells
present. -/
theorem length_validPairs (xs ys : List Cell) :
    (validPairs xs ys).length =
      (xs.zip ys).countP (fun p => p.1.isSome && p.2.isSome) := by
  rw [validPairs, List.length_filterMap_eq_countP]
  refine List.countP_congr ?_
  intro p _
  rcases p with ⟨a | a, b | b⟩ <;> simp

/-- Equality of query results is decidable (used to evaluate the callbacks
on concrete datasets). -/
instance {e a : Type} [DecidableEq e] [DecidableEq a] :
    DecidableEq (Except e a) := fun x y =>
  match x, y with
  | .ok u, .ok v =>
    if h : u = v then isTrue (by rw [h])
    else isFalse (fun hc => h (by injection hc))
  | .error u, .error v =>
    if h : u = v then isTrue (by rw [h])
    else isFalse (fun hc => h (by injection hc))
  | .ok _, .error _ => isFalse (fun hc => Except.noConfusion hc)
  | .error _, .ok _ => isFalse (fun hc => Except.noConfusion hc)

/-- A one-row object column whose only cell is missing. -/
def colA : Column := ⟨"A", Dtype.obj, [none]⟩

/-- A one-row object column with a present cell. -/
def colB : Column := ⟨"B", Dtype.obj, [some (Value.str "x")]⟩

/-- A two-column dataset with one row whose first cell is missing, used to
separate the grouped-count total from the row count. -/
def dfC5 : DataFrame :=
  { nrows := 1
    cols := [colA, colB] }

/-- C5 counterexample: on `dfC5` both `A` and `B` are categorical, yet
`compare("A", "B")` returns a bar chart whose counts sum to `0`, not to the
row count `1` — `groupby` drops the row whose `A` cell is missing. -/
theorem C5_counterexample :
    "A" ∈ (classifyColumns dfC5).categorical_cols ∧
    "B" ∈ (classifyColumns dfC5).categorical_cols ∧
    (update_comparison_plot dfC5 (classifyColumns dfC5) "A" "B").map
      chartCountSum = Except.ok 0 ∧
    dfC5.nrows = 1 := by decide

/-- C5 (amended): for every pair of categorical columns present in the
dataset, the grouped counts of the comparison bar chart sum to the number
of rows in which both columns are non-missing (not to the full row
count: `groupby` drops rows with a missing key component). -/
theorem C5_grouped_counts_total (d : DataFrame) (cl : Classified)
    (categorical_col comparison_col : String) (c1 c2 : Column)
    (_hcat : categorical_col ∈ cl.categorical_cols)
    (hcmp : comparison_col ∈ cl.categorical_cols)
    (h1 : d.findCol categorical_col = some c1)
    (h2 : d.findCol comparison_col = some c2) :
    (update_comparison_plot d cl categorical_col comparison_col).map
        chartCountSum =
      Except.ok ((c1.cells.zip c2.cells).countP
        (fun p => p.1.isSome && p.2.isSome)) := by
  unfold update_comparison_plot
  rw [if_pos hcmp, h1, h2]
  rw [Except.map, chartCountSum, sum_groupSizes, length_validPairs]

/-- Counting a value among the present cells equals counting its cell among
all cells. -/
theorem value_counts_countP_eq {cells : List Cell} {v : Value} :
    (cells.filterMap id).countP (fun x => x = v) =
      cells.countP (fun cell => cell = some v) := by
  rw [List.countP_filterMap]
  refine List.countP_congr ?_
  intro cell _
  rcases cell with _ | a <;> simp

/-- The membership-and-count characterisation of `value_counts`. -/
theorem mem_value_counts {cells : List Cell} {p : Value × Nat} :
    p ∈ value_counts cells ↔
      (some p.1 ∈ cells ∧
        p.2 = cells.countP (fun cell => cell = some p.1)) := by
  rw [value_counts, List.mem_insertionSort, mem_groupSizes_countP]
  constructor
  · rintro ⟨hmem, hcnt⟩
    rcases List.mem_filterMap.1 hmem with ⟨a, ha, rfl⟩
    exact ⟨ha, by rw [hcnt, value_counts_countP_eq]⟩
  · rintro ⟨hmem, hcnt⟩
    refine ⟨List.mem_filterMap.2 ⟨some p.1, hmem, rfl⟩, ?_⟩
    rw [hcnt, value_counts_countP_eq]

/-- The bucket labels of `value_counts` are duplicate-free. -/
theorem nodup_value_counts_fst (cells : List Cell) :
    ((value_counts cells).map (·.1)).Nodup := by
  have hperm : List.Perm (value_counts cells)
      (groupSizes (cells.filterMap id)) :=
    List.perm_insertionSort _ _
  refine ((hperm.map (·.1)).nodup_iff).2 ?_
  rw [groupSizes, List.map_map]
  have hcomp :
      ((fun p : Value × Nat => p.1) ∘
        fun k => (k, (cells.filterMap id).count k)) = id := rfl
  rw [hcomp, List.map_id]
  exact nodup_uniqueKeys _

/-- 100 neighborhood cells: three distinct values of sizes 10, 20 and 70
(the scenario dataset of the spec). -/
def neighborhoodCells : List Cell :=
  List.replicate 10 (some (Value.str "NAmes")) ++
    List.replicate 20 (some (Value.str "OldTown")) ++
    List.replicate 70 (some (Value.str "CollgCr"))

/-- The scenario dataset: 100 rows, one categorical column with three
values of sizes 10/20/70. -/
def dfC6 : DataFrame :=
  { nrows := 100
    cols := [⟨"Neighborhood", Dtype.obj, neighborhoodCells⟩] }

/-- C6: the count-by callback returns, for a present column, a bar chart
with one bucket per distinct present value, each bucket counting the rows
with that value; on the 10/20/70 scenario dataset it returns exactly three
buckets with counts 70, 20, 10 (descending), summing to 100. -/
theorem C6_count_by :
    (∀ (d : DataFrame) (col : String) (c : Column),
      d.findCol col = some c →
      update_categorical_count_plot d col =
        Except.ok (ChartSpec.countBar col "Count"
          ("Count of Properties by " ++ col) (value_counts c.cells)) ∧
      (∀ p : Value × Nat, p ∈ value_counts c.cells ↔
        (some p.1 ∈ c.cells ∧
          p.2 = c.cells.countP (fun cell => cell = some p.1))) ∧
      ((value_counts c.cells).map (·.1)).Nodup) ∧
    (update_categorical_count_plot dfC6 "Neighborhood" =
      Except.ok (ChartSpec.countBar "Neighborhood" "Count"
        "Count of Properties by Neighborhood"
        [(Value.str "CollgCr", 70), (Value.str "OldTown", 20),
         (Value.str "NAmes", 10)]) ∧
     (update_categorical_count_plot dfC6 "Neighborhood").map chartCountSum =
       Except.ok 100 ∧
     dfC6.nrows = 100) := by
  constructor
  · intro d col c h
    refine ⟨?_, fun p => mem_value_counts, nodup_value_counts_fst _⟩
    unfold update_categorical_count_plot
    rw [h]
  · refine ⟨by decide, by decide, rfl⟩

/-- C6 witness: the general bucket characterisation applied to the
scenario dataset. -/
theorem C6_witness :
    update_categorical_count_plot dfC6 "Neighborhood" =
      Except.ok (ChartSpec.countBar "Neighborhood" "Count"
        ("Count of Properties by " ++ "Neighborhood")
        (value_counts neighborhoodCells)) ∧
    (∀ p : Value × Nat, p ∈ value_counts neighborhoodCells ↔
      (some p.1 ∈ neighborhoodCells ∧
        p.2 = neighborhoodCells.countP (fun cell => cell = some p.1))) ∧
    ((value_counts neighborhoodCells).map (·.1)).Nodup :=
  C6_count_by.1 dfC6 "Neighborhood"
    (Column.mk "Neighborhood" Dtype.obj neighborhoodCells) rfl

/-- A cell a numeric-dtype column can hold: missing or a number, never a
string. -/
def isNumericCell : Cell → Bool
  | some (Value.str _) => false
  | _ => true

/-- Bridge between a sum over `List.range` and a `Finset.range` sum. -/
theorem list_range_map_sum {M : Type} [AddCommMonoid M] (n : Nat)
    (g : Nat → M) :
    ((List.range n).map g).sum = ∑ i ∈ Finset.range n, g i := by
  induction n with
  | zero => simp
  | succ n ih =>
    rw [List.range_succ, List.map_append, List.sum_append,
      Finset.sum_range_succ, ih]
    simp

/-- Partitioning a list by a `Nat`-valued index below `n` and counting each
class recovers the list length. -/
theorem sum_countP_index {α : Type} (f : α → Nat) (n : Nat) :
    ∀ l : List α, (∀ a ∈ l, f a < n) →
      ∑ i ∈ Finset.range n, l.countP (fun a => f a = i) = l.length
  | [], _ => by simp
  | a :: t, h => by
    have ha : f a < n := h a (List.mem_cons_self a t)
    have ht : ∀ x ∈ t, f x < n := fun x hx => h x (List.mem_cons_of_mem _ hx)
    simp only [List.countP_cons, List.length_cons]
    rw [Finset.sum_add_distrib, sum_countP_index f n t ht]
    congr 1
    simp only [decide_eq_true_eq]
    rw [Finset.sum_ite_eq]
    simp [Finset.mem_range.2 ha]

/-- The bin index is always a legal bucket number. -/
theorem binIndex_lt {nbins : Nat} (hn : 0 < nbins) (lo w x : ℚ) :
    binIndex nbins lo w x < nbins := by
  rw [binIndex]
  split
  · exact hn
  · exact lt_of_le_of_lt (min_le_left _ _) (Nat.sub_lt hn Nat.one_pos)

/-- The bucket list of a non-degenerate histogram, unfolded. -/
theorem histBuckets_eq {nbins : Nat} {vs : List ℚ} (h : vs ≠ []) :
    histBuckets nbins vs =
      (List.range nbins).map (fun i : Nat =>
        (qmin vs + (i : ℚ) * ((qmax vs - qmin vs) / (nbins : ℚ)),
         qmin vs + ((i : ℚ) + 1) * ((qmax vs - qmin vs) / (nbins : ℚ)),
         vs.countP (fun x =>
           binIndex nbins (qmin vs) ((qmax vs - qmin vs) / (nbins : ℚ)) x
             = i))) := by
  rw [histBuckets, if_neg]
  simp [List.isEmpty_iff, h]

/-- The bucket counts of the histogram sum to the number of binned
values. -/
theorem sum_histBuckets {nbins : Nat} (hn : 0 < nbins) {vs : List ℚ}
    (h : vs ≠ []) :
    ((histBuckets nbins vs).map (·.2.2)).sum = vs.length := by
  rw [histBuckets_eq h, List.map_map]
  have hmap :
      ((fun b : ℚ × ℚ × Nat => b.2.2) ∘ fun i : Nat =>
        (qmin vs + (i : ℚ) * ((qmax vs - qmin vs) / (nbins : ℚ)),
         qmin vs + ((i : ℚ) + 1) * ((qmax vs - qmin vs) / (nbins : ℚ)),
         vs.countP (fun x =>
           binIndex nbins (qmin vs) ((qmax vs - qmin vs) / (nbins : ℚ)) x
             = i))) =
      fun i : Nat => vs.countP (fun x =>
        binIndex nbins (qmin vs) ((qmax vs - qmin vs) / (nbins : ℚ)) x
          = i) := rfl
  rw [hmap, list_range_map_sum]
  exact sum_countP_index _ nbins vs (fun a _ => binIndex_lt hn _ _ _)

/-- In a numeric column, the binned values are exactly the non-missing
cells. -/
theorem length_numericValues {cells : List Cell}
    (hnum : ∀ cell ∈ cells, isNumericCell cell = true) :
    (numericValues cells).length = cells.countP (·.isSome) := by
  rw [numericValues, List.length_filterMap_eq_countP]
  refine List.countP_congr ?_
  intro cell hcell
  have hc := hnum cell hcell
  rcases cell with _ | v
  · simp
  · rcases v with s | q
    · simp [isNumericCell] at hc
    · simp

/-- A non-degenerate histogram has exactly `nbins` buckets. -/
theorem length_histBuckets {nbins : Nat} {vs : List ℚ} (h : vs ≠ []) :
    (histBuckets nbins vs).length = nbins := by
  rw [histBuckets_eq h]
  simp

/-- Every histogram bucket has the common width
`(max - min) / nbins`. -/
theorem histBuckets_width {nbins : Nat} {vs : List ℚ} (h : vs ≠ []) :
    ∀ b ∈ histBuckets nbins vs,
      b.2.1 - b.1 = (qmax vs - qmin vs) / (nbins : ℚ) := by
  rw [histBuckets_eq h]
  intro b hb
  rcases List.mem_map.1 hb with ⟨i, -, rfl⟩
  ring

/-- The first bucket starts at the observed minimum. -/
theorem histBuckets_head {nbins : Nat} (hn : 0 < nbins) {vs : List ℚ}
    (h : vs ≠ []) :
    (histBuckets nbins vs).head?.map (·.1) = some (qmin vs) := by
  rw [histBuckets_eq h, List.head?_map]
  cases nbins with
  | zero => exact absurd hn (by omega)
  | succ m =>
    rw [List.range_succ_eq_map]
    simp

/-- The last bucket ends at the observed maximum. -/
theorem histBuckets_last {nbins : Nat} (hn : 0 < nbins) {vs : List ℚ}
    (h : vs ≠ []) :
    (histBuckets nbins vs).getLast?.map (·.2.1) = some (qmax vs) := by
  rw [histBuckets_eq h]
  cases nbins with
  | zero => exact absurd hn (by omega)
  | succ m =>
    rw [List.range_succ, List.map_append, List.map_cons, List.map_nil,
      List.getLast?_concat]
    have hne : ((m : ℚ) + 1) ≠ 0 := by positivity
    simp only [Option.map_some']
    congr 1
    push_cast
    field_simp

/-- C7: for a dataset whose `SalePrice` column is present, numeric-typed
and has at least one value, the histogram callback returns a histogram of
the fixed `SalePrice` column with a box marginal and exactly 50 buckets,
all of width `(max - min) / 50`, the first starting at the observed
minimum, the last ending at the observed maximum, and the bucket counts
summing to the number of non-missing `SalePrice` cells. -/
theorem C7_saleprice_histogram (d : DataFrame) (t : String) (c : Column)
    (h : d.findCol "SalePrice" = some c)
    (hnum : ∀ cell ∈ c.cells, isNumericCell cell = true)
    (hne : numericValues c.cells ≠ []) :
    update_sale_price_histogram d t =
      Except.ok (ChartSpec.histogram "SalePrice" "Distribution of Sale Price"
        50 "box" (histBuckets 50 (numericValues c.cells))) ∧
    (histBuckets 50 (numericValues c.cells)).length = 50 ∧
    (∀ b ∈ histBuckets 50 (numericValues c.cells),
      b.2.1 - b.1 =
        (qmax (numericValues c.cells) - qmin (numericValues c.cells)) /
          (50 : ℚ)) ∧
    (histBuckets 50 (numericValues c.cells)).head?.map (·.1) =
      some (qmin (numericValues c.cells)) ∧
    (histBuckets 50 (numericValues c.cells)).getLast?.map (·.2.1) =
      some (qmax (numericValues c.cells)) ∧
    ((histBuckets 50 (numericValues c.cells)).map (·.2.2)).sum =
      c.cells.countP (·.isSome) := by
  have h50 : (0 : Nat) < 50 := by omega
  refine ⟨?_, length_histBuckets hne, ?_, histBuckets_head h50 hne,
    histBuckets_last h50 hne, ?_⟩
  · unfold update_sale_price_histogram
    rw [h]
  · have hw := @histBuckets_width 50 (numericValues c.cells) hne
    intro b hb
    have := hw b hb
    simpa using this
  · rw [sum_histBuckets h50 hne]
    exact length_numericValues hnum

/-- C8: the histogram chart is the same whatever the dropdown selections
are, and depends only on the dataset's `SalePrice` column. -/
theorem C8_histogram_ignores_selection (d d' : DataFrame)
    (s1 s2 : SelectionState)
    (h : d.findCol "SalePrice" = d'.findCol "SalePrice") :
    renderSalePriceHistogram d s1 = renderSalePriceHistogram d' s2 := by
  unfold renderSalePriceHistogram update_sale_price_histogram
  rw [h]

/-- A name absent from the columns makes the lookup fail. -/
theorem findCol_eq_none {d : DataFrame} {n : String}
    (h : n ∉ d.columnNames) : d.findCol n = none := by
  rw [DataFrame.findCol, List.find?_eq_none]
  intro c hc
  simp only [decide_eq_true_eq]
  intro hn
  exact h (List.mem_map.2 ⟨c, hc, hn⟩)

/-- A successful lookup means the name is a column name. -/
theorem mem_of_findCol_eq_some {d : DataFrame} {n : String} {c : Column}
    (h : d.findCol n = some c) : n ∈ d.columnNames := by
  have hmem : c ∈ d.cols := List.mem_of_find?_eq_some h
  have hname : c.name = n := by
    have := List.find?_some h
    simpa using this
  exact List.mem_map.2 ⟨c, hmem, hname⟩

/-- C9 counterexample: on the concrete dataset `dfC5`, selecting the
absent column `Bogus` makes the count-by callback fail with the pandas
`KeyError`, which is not the spec's `ColumnNotFoundError`. -/
theorem C9_counterexample :
    update_categorical_count_plot dfC5 "Bogus" =
      Except.error (QueryError.keyError "Bogus") ∧
    Except.error (QueryError.keyError "Bogus") ≠
      (Except.error (QueryError.columnNotFoundError "Bogus") :
        Except QueryError ChartSpec) := by decide

/-- C9 (amended): when a selection references a column name absent from
the dataset, the comparison, count-by and scatter callbacks each fail with
an error (the pandas `KeyError` or the plotly `ValueError`, naming the
missing column) rather than returning a chart; no callback raises the
spec's `ColumnNotFoundError`, which does not exist in the code. -/
theorem C9_missing_column_errors :
    (∀ (d : DataFrame) (cl : Classified) (cat cmp : String),
      cat ∉ d.columnNames ∨ cmp ∉ d.columnNames →
      ∃ e, update_comparison_plot d cl cat cmp = Except.error e) ∧
    (∀ (d : DataFrame) (col : String), col ∉ d.columnNames →
      ∃ e, update_categorical_count_plot d col = Except.error e) ∧
    (∀ (d : DataFrame) (x y : String), x ∉ d.columnNames ∨ y ∉ d.columnNames →
      ∃ e, update_scatter_plot d x y = Except.error e) := by
  refine ⟨?_, ?_, ?_⟩
  · intro d cl cat cmp habs
    unfold update_comparison_plot
    by_cases hdisp : cmp ∈ cl.categorical_cols
    · rw [if_pos hdisp]
      rcases habs with habs | habs
      · rw [findCol_eq_none habs]
        exact ⟨_, rfl⟩
      · cases hcat : d.findCol cat with
        | none => exact ⟨_, rfl⟩
        | some c1 =>
          rw [findCol_eq_none habs]
          exact ⟨_, rfl⟩
    · rw [if_neg hdisp]
      rcases habs with habs | habs
      · rw [findCol_eq_none habs]
        exact ⟨_, rfl⟩
      · cases hcat : d.findCol cat with
        | none => exact ⟨_, rfl⟩
        | some c1 =>
          rw [findCol_eq_none habs]
          exact ⟨_, rfl⟩
  · intro d col habs
    unfold update_categorical_count_plot
    rw [findCol_eq_none habs]
    exact ⟨_, rfl⟩
  · intro d x y habs
    unfold update_scatter_plot
    rcases habs with habs | habs
    · rw [findCol_eq_none habs]
      exact ⟨_, rfl⟩
    · cases hx : d.findCol x with
      | none => exact ⟨_, rfl⟩
      | some cx =>
        rw [findCol_eq_none habs]
        exact ⟨_, rfl⟩

/-- C10: the count-by buckets are ordered by non-increasing count: the
most frequent value comes first. -/
theorem C10_count_buckets_sorted (d : DataFrame) (col : String) (c : Column)
    (h : d.findCol col = some c) :
    update_categorical_count_plot d col =
      Except.ok (ChartSpec.countBar col "Count"
        ("Count of Properties by " ++ col) (value_counts c.cells)) ∧
    List.Sorted countGE (value_counts c.cells) ∧
    (∀ p ∈ value_counts c.cells, ∀ q, (value_counts c.cells).head? = some q →
      p.2 ≤ q.2) := by
  refine ⟨?_, List.sorted_insertionSort countGE _, ?_⟩
  · unfold update_categorical_count_plot
    rw [h]
  · intro p hp q hq
    rcases hhead : value_counts c.cells with _ | ⟨b, rest⟩
    · rw [hhead] at hp
      exact absurd hp (List.not_mem_nil p)
    · rw [hhead] at hq
      have hqb : q = b := by
        have := hq
        simp only [List.head?_cons, Option.some.injEq] at this
        exact this.symm
      have hsorted : List.Sorted countGE (b :: rest) := by
        rw [← hhead]
        exact List.sorted_insertionSort countGE _
      rw [hhead] at hp
      rcases List.mem_cons.1 hp with rfl | hp
      · rw [hqb]
      · rw [hqb]
        exact List.rel_of_sorted_cons hsorted p hp

/-- A three-column dataset with a numeric-coded `MSSubClass` column. -/
def dfMS : DataFrame :=
  { nrows := 2
    cols := [⟨"MSSubClass", Dtype.numeric,
                [some (Value.num 20), some (Value.num 60)]⟩,
             ⟨"Neighborhood", Dtype.obj,
                [some (Value.str "NAmes"), some (Value.str "OldTown")]⟩,
             ⟨"SalePrice", Dtype.numeric,
                [some (Value.num 100), some (Value.num 200)]⟩] }

/-- A numeric `SalePrice` column with two values. -/
def colSale : Column :=
  ⟨"SalePrice", Dtype.numeric, [some (Value.num 100), some (Value.num 300)]⟩

/-- A single-column dataset holding only `SalePrice`. -/
def dfSale : DataFrame := { nrows := 2, cols := [colSale] }

/-- C1 witness: the retention rule evaluated on a concrete dataset with one
row and an all-missing column. -/
theorem C1_witness :
    (colA ∈ (cleanDF dfC5).cols ↔
      (colA ∈ dfC5.cols ∧
        (missingCount colA : ℚ) / (dfC5.nrows : ℚ) < 1 / 2)) ∧
    ((1 / 2 : ℚ) ≤ (missingCount colA : ℚ) / (dfC5.nrows : ℚ) →
      colA ∉ (cleanDF dfC5).cols) :=
  C1_column_retention dfC5 colA (by decide)

/-- C2 witness: the override evaluated on a concrete dataset with a
numeric-coded `MSSubClass` column. -/
theorem C2_witness :
    ("MSSubClass" ∈ (cleanDF dfMS).columnNames →
      "MSSubClass" ∈ (classifyColumns (cleanDF dfMS)).categorical_cols ∧
        "MSSubClass" ∉ (classifyColumns (cleanDF dfMS)).numerical_cols) ∧
    ("MSSubClass" ∉ (cleanDF dfMS).columnNames →
      classifyColumns (cleanDF dfMS) =
        { categorical_cols := select_dtypes_object (cleanDF dfMS)
          numerical_cols := select_dtypes_number (cleanDF dfMS) }) :=
  C2_mssubclass_override dfMS (by decide)

/-- C3 witness: the catalog properties evaluated on a concrete dataset. -/
theorem C3_witness :
    "SalePrice" ∉ numerical_features_for_comparison (classifyColumns dfMS) ∧
    all_features (classifyColumns dfMS) =
      (classifyColumns dfMS).categorical_cols ++
        numerical_features_for_comparison (classifyColumns dfMS) ∧
    (∀ n ∈ (classifyColumns dfMS).categorical_cols,
      n ∉ numerical_features_for_comparison (classifyColumns dfMS)) ∧
    (all_features (classifyColumns dfMS)).Nodup :=
  C3_catalog_disjoint_union dfMS (by decide)

/-- C4 witness: the dispatch evaluated on a concrete dataset with two
categorical columns. -/
theorem C4_witness :
    ("B" ∈ (classifyColumns dfC5).categorical_cols →
      update_comparison_plot dfC5 (classifyColumns dfC5) "A" "B" =
        Except.ok (ChartSpec.bar "A" "Count" "B"
          ("Count of " ++ "A" ++ " by " ++ "B")
          (groupSizes (validPairs colA.cells colB.cells))) ∧
      ∀ p : (Value × Value) × Nat,
        p ∈ groupSizes (validPairs colA.cells colB.cells) ↔
          (p.1 ∈ validPairs colA.cells colB.cells ∧
            p.2 = (validPairs colA.cells colB.cells).countP
              (fun q => q = p.1))) ∧
    ("B" ∉ (classifyColumns dfC5).categorical_cols →
      update_comparison_plot dfC5 (classifyColumns dfC5) "A" "B" =
        Except.ok (ChartSpec.box "A" "B"
          ("B" ++ " Distribution by " ++ "A")
          (boxGroups colA.cells colB.cells)) ∧
      ((boxGroups colA.cells colB.cells).map (·.1)).Nodup ∧
      (∀ v : Value,
        v ∈ (boxGroups colA.cells colB.cells).map (·.1) ↔
          some v ∈ colA.cells) ∧
      (∀ g ∈ boxGroups colA.cells colB.cells,
        g.2 = ((colA.cells.zip colB.cells).filter
          (fun p => p.1 = some g.1)).map (·.2))) :=
  C4_comparison_dispatch dfC5 (classifyColumns dfC5) "A" "B" colA colB rfl rfl

/-- C5 witness: the amended total evaluated on the concrete dataset. -/
theorem C5_witness :
    (update_comparison_plot dfC5 (classifyColumns dfC5) "A" "B").map
        chartCountSum =
      Except.ok ((colA.cells.zip colB.cells).countP
        (fun p => p.1.isSome && p.2.isSome)) :=
  C5_grouped_counts_total dfC5 (classifyColumns dfC5) "A" "B" colA colB
    (by decide) (by decide) rfl rfl

/-- C7 witness: the histogram properties evaluated on a concrete numeric
`SalePrice` column. -/
theorem C7_witness :
    update_sale_price_histogram dfSale "sale-price-histogram" =
      Except.ok (ChartSpec.histogram "SalePrice" "Distribution of Sale Price"
        50 "box" (histBuckets 50 (numericValues colSale.cells))) ∧
    (histBuckets 50 (numericValues colSale.cells)).length = 50 ∧
    (∀ b ∈ histBuckets 50 (numericValues colSale.cells),
      b.2.1 - b.1 =
        (qmax (numericValues colSale.cells) -
          qmin (numericValues colSale.cells)) / (50 : ℚ)) ∧
    (histBuckets 50 (numericValues colSale.cells)).head?.map (·.1) =
      some (qmin (numericValues colSale.cells)) ∧
    (histBuckets 50 (numericValues colSale.cells)).getLast?.map (·.2.1) =
      some (qmax (numericValues colSale.cells)) ∧
    ((histBuckets 50 (numericValues colSale.cells)).map (·.2.2)).sum =
      colSale.cells.countP (·.isSome) :=
  C7_saleprice_histogram dfSale "sale-price-histogram" colSale rfl
    (by decide) (by decide)

/-- C8 witness: two different selection states produce the same histogram
on a concrete dataset. -/
theorem C8_witness :
    renderSalePriceHistogram dfSale
        ⟨"Neighborhood", "SalePrice", "GrLivArea", "SalePrice"⟩ =
      renderSalePriceHistogram dfSale
        ⟨"Street", "YrSold", "LotArea", "GrLivArea"⟩ :=
  C8_histogram_ignores_selection dfSale dfSale _ _ rfl

/-- C9 witness: the three selection-driven callbacks each fail on a
concrete absent column. -/
theorem C9_witness :
    ("Bogus" ∉ dfC5.columnNames) ∧
    (∃ e, update_comparison_plot dfC5 (classifyColumns dfC5) "Bogus" "B" =
      Except.error e) ∧
    (∃ e, update_categorical_count_plot dfC5 "Bogus" = Except.error e) ∧
    (∃ e, update_scatter_plot dfC5 "Bogus" "B" = Except.error e) :=
  ⟨by decide,
   C9_missing_column_errors.1 dfC5 (classifyColumns dfC5) "Bogus" "B"
     (Or.inl (by decide)),
   C9_missing_column_errors.2.1 dfC5 "Bogus" (by decide),
   C9_missing_column_errors.2.2 dfC5 "Bogus" "B" (Or.inl (by decide))⟩

/-- C10 witness: the descending-count order evaluated on the 10/20/70
scenario dataset. -/
theorem C10_witness :
    update_categorical_count_plot dfC6 "Neighborhood" =
      Except.ok (ChartSpec.countBar "Neighborhood" "Count"
        ("Count of Properties by " ++ "Neighborhood")
        (value_counts neighborhoodCells)) ∧
    List.Sorted countGE (value_counts neighborhoodCells) ∧
    (∀ p ∈ value_counts neighborhoodCells, ∀ q,
      (value_counts neighborhoodCells).head? = some q → p.2 ≤ q.2) :=
  C10_count_buckets_sorted dfC6 "Neighborhood"
    (Column.mk "Neighborhood" Dtype.obj neighborhoodCells) rfl
